import Mathlib

/-!
Verification of `featuretools/primitives/transform_primitive.py`: the
transform-primitive construction contract, display-name derivation, the
grouped diff primitives, the timedelta unit family, and the calc-time-aware
primitives, shallowly embedded in Lean.
-/

set_option autoImplicit false

namespace FT

/-- The variable-type taxonomy (external to the file under verification).
Modelled from the spec: a fixed hierarchy of semantic column kinds —
Numeric, Boolean, Discrete {Categorical, Ordinal, Id}, Text,
Datetime {TimeIndex {DatetimeTimeIndex}}, Timedelta, all below Variable. -/
inductive VariableType where
  | variable
  | numeric
  | boolean
  | discrete
  | categorical
  | ordinal
  | id
  | text
  | datetime
  | timeIndex
  | datetimeTimeIndex
  | timedelta
deriving DecidableEq, Repr

/-- The ancestor chain of a kind, the kind itself included; encodes the
subtype relationships of the taxonomy. -/
def VariableType.ancestors : VariableType → List VariableType
  | .variable => [.variable]
  | .numeric => [.numeric, .variable]
  | .boolean => [.boolean, .variable]
  | .discrete => [.discrete, .variable]
  | .categorical => [.categorical, .discrete, .variable]
  | .ordinal => [.ordinal, .discrete, .variable]
  | .id => [.id, .discrete, .variable]
  | .text => [.text, .variable]
  | .datetime => [.datetime, .variable]
  | .timeIndex => [.timeIndex, .datetime, .variable]
  | .datetimeTimeIndex => [.datetimeTimeIndex, .timeIndex, .datetime, .variable]
  | .timedelta => [.timedelta, .variable]

/-- `issubclass` over the taxonomy: reflexive-transitive subtype check. -/
def issubclassVT (a b : VariableType) : Bool :=
  b ∈ a.ancestors

/-- A base feature node.  Modelled from the spec: the Feature base class is
not under src/; per the spec's data model it exposes `entity` (owning table
identity), `variable_type`, `default_value`, `expanding`, and a display
name `get_name()` (the `name` field here). -/
structure Feature where
  entity : Nat
  variable_type : VariableType
  default_value : Int
  expanding : Bool
  name : String
deriving DecidableEq, Repr

/-- Modelled from the spec: `PrimitiveBase._check_feature` (not under src/)
coerces raw columns into Feature nodes and passes Feature arguments
through unchanged; all arguments in the verified claims are already
Features, so the coercion is the identity here. -/
def check_feature (f : Feature) : Feature := f

/-- A successfully constructed transform primitive: the class-level
transformation `name`, the checked base features, the propagated
`expanding` flag, and the owning entity fixed by the base-class
constructor. -/
structure TransformPrimitive where
  name : String
  base_features : List Feature
  expanding : Bool
  entity : Nat
deriving DecidableEq, Repr

/-- `TransformPrimitive.__init__`: checks each base feature, propagates
`expanding` when any base feature is expanding, and asserts that the base
features' entities form exactly one distinct value
(`len(set([f.entity for f in self.base_features])) == 1`), failing with
"More than one entity for base features" otherwise. -/
def tp_init (name : String) (base_features : List Feature) :
    Except String TransformPrimitive :=
  let bfs := base_features.map check_feature
  if ((bfs.map (fun f => f.entity)).dedup).length = 1 then
    .ok { name := name
          base_features := bfs
          expanding := bfs.any (fun f => f.expanding)
          entity := ((bfs.head?).map (fun f => f.entity)).getD 0 }
  else
    .error "More than one entity for base features"

/-- Python's `str.upper` on one character (the primitive names are ASCII). -/
def upperChar (c : Char) : Char :=
  if c.isLower then Char.ofNat (c.toNat - 32) else c

/-- Python's `str.upper` (ASCII). -/
def upperStr (s : String) : String :=
  String.mk (s.data.map upperChar)

/-- Python's `", ".join` on a list of strings. -/
def joinComma : List String → String
  | [] => ""
  | [s] => s
  | s :: rest => s ++ ", " ++ joinComma rest

/-- `TransformPrimitive._get_name`: uppercased transformation name, then
the comma-joined base feature names in parentheses. -/
def tp_get_name (p : TransformPrimitive) : String :=
  upperStr p.name ++ "(" ++ joinComma (p.base_features.map (fun f => f.name)) ++ ")"

/-- The `default_value` property: the first base feature's default value. -/
def tp_default_value (p : TransformPrimitive) : Int :=
  ((p.base_features.head?).map (fun f => f.default_value)).getD 0

/-- The base features all belong to exactly one owning entity. -/
def oneEntity (bfs : List Feature) : Prop :=
  ∃ e, bfs ≠ [] ∧ ∀ f ∈ bfs, f.entity = e

instance (bfs : List Feature) : Decidable (oneEntity bfs) := by
  unfold oneEntity
  cases h : bfs with
  | nil => exact .isFalse (by simp)
  | cons a t =>
    refine decidable_of_iff (∀ f ∈ a :: t, f.entity = a.entity) ?_
    constructor
    · intro hall
      exact ⟨a.entity, by simp, hall⟩
    · rintro ⟨e, -, hall⟩ f hf
      rw [hall f hf, hall a (by simp)]

lemma dedup_replicate_succ (n : Nat) (e : Nat) :
    (List.replicate (n + 1) e).dedup = [e] := by
  induction n with
  | zero => simp
  | succ m ih =>
    rw [List.replicate_succ, List.dedup_cons_of_mem (by simp)]
    exact ih

lemma dedup_length_one_iff (bfs : List Feature) :
    ((bfs.map (fun f => f.entity)).dedup).length = 1 ↔ oneEntity bfs := by
  rw [List.length_eq_one]
  constructor
  · rintro ⟨e, he⟩
    rcases bfs with _ | ⟨a, t⟩
    · simp at he
    · refine ⟨e, by simp, ?_⟩
      intro f hf
      have : f.entity ∈ ((a :: t).map (fun f => f.entity)).dedup := by
        rw [List.mem_dedup]
        exact List.mem_map_of_mem _ hf
      rw [he] at this
      simpa using this
  · rintro ⟨e, hne, hall⟩
    refine ⟨e, ?_⟩
    have hmap : bfs.map (fun f => f.entity) = List.replicate bfs.length e := by
      apply List.eq_replicate_iff.mpr
      constructor
      · simp
      · intro b hb
        rcases List.mem_map.mp hb with ⟨f, hf, rfl⟩
        exact hall f hf
    have hlen : bfs.length ≠ 0 := fun h => hne (List.length_eq_zero.mp h)
    rcases Nat.exists_eq_succ_of_ne_zero hlen with ⟨n, hn⟩
    rw [hmap, hn]
    exact dedup_replicate_succ n e

lemma joinComma_cons_cons (s a : String) (rest : List String) :
    joinComma (s :: a :: rest) = s ++ ", " ++ joinComma (a :: rest) := rfl

/-- The comma-join of a list with one varying slot is an affine function of
that slot: a fixed prefix string, the slot, a fixed suffix string. -/
lemma joinComma_insert (pre suf : List String) :
    ∃ A B : String, ∀ x, joinComma (pre ++ x :: suf) = A ++ x ++ B := by
  induction pre with
  | nil =>
    cases suf with
    | nil =>
      exact ⟨"", "", fun x => by
        simp [joinComma, String.empty_append, String.append_empty]⟩
    | cons s rest =>
      refine ⟨"", ", " ++ joinComma (s :: rest), fun x => ?_⟩
      rw [List.nil_append, joinComma_cons_cons, String.empty_append,
        String.append_assoc]
  | cons p ps ih =>
    rcases ih with ⟨A, B, hAB⟩
    refine ⟨p ++ ", " ++ A, B, fun x => ?_⟩
    cases hq : ps ++ x :: suf with
    | nil => simp at hq
    | cons a t =>
      rw [List.cons_append, hq, joinComma_cons_cons, ← hq, hAB x]
      simp [String.append_assoc]

lemma map_check_feature (l : List Feature) : l.map check_feature = l :=
  List.map_id' l

/-- `tp_init` with the intermediate let and the identity coercion
reduced. -/
lemma tp_init_eq (name : String) (bfs : List Feature) :
    tp_init name bfs =
      if ((bfs.map (fun f => f.entity)).dedup).length = 1 then
        .ok ⟨name, bfs, bfs.any (fun f => f.expanding),
          ((bfs.head?).map (fun f => f.entity)).getD 0⟩
      else .error "More than one entity for base features" := by
  simp [tp_init, check_feature, Function.comp_def, map_check_feature]

/-- Strings cancel around a middle slot. -/
lemma append_inj_mid (A B x y : String) (h : A ++ x ++ B = A ++ y ++ B) :
    x = y := by
  have hd := congrArg String.data h
  rw [String.data_append, String.data_append, String.data_append,
    String.data_append] at hd
  exact String.ext (List.append_cancel_left (List.append_cancel_right hd))

/-- Two primitives of the same transformation whose base-feature lists agree
except at one slot, where the two features carry different display names,
get different display names. -/
lemma tp_get_name_ne_of_slot_ne (p q : TransformPrimitive)
    (pre suf : List Feature) (x y : Feature)
    (hm : p.name = q.name)
    (hp : p.base_features = pre ++ x :: suf)
    (hq : q.base_features = pre ++ y :: suf)
    (hxy : x.name ≠ y.name) :
    tp_get_name p ≠ tp_get_name q := by
  intro h
  unfold tp_get_name at h
  rw [hp, hq, hm, List.map_append, List.map_append, List.map_cons,
    List.map_cons] at h
  rcases joinComma_insert (pre.map (fun f => f.name))
    (suf.map (fun f => f.name)) with ⟨A, B, hAB⟩
  rw [hAB x.name, hAB y.name] at h
  have h2 := append_inj_mid (upperStr q.name ++ "(") ")" _ _ h
  exact hxy (append_inj_mid A B x.name y.name h2)

/-- A successfully constructed TimeSincePrevious primitive: its time index,
its grouping feature, and the underlying transform primitive. -/
structure TimeSincePrevious where
  time_index : Feature
  group_feature : Feature
  tp : TransformPrimitive
deriving DecidableEq, Repr

/-- `TimeSincePrevious.__init__`: checks the group feature, asserts
`issubclass(group_feature.variable_type, Discrete)` (failing with
"group_feature must have a discrete variable_type"), stores the group
feature, then delegates to `TransformPrimitive.__init__` on
`(time_index, group_feature)`. -/
def tsp_init (time_index group_feature : Feature) :
    Except String TimeSincePrevious :=
  if issubclassVT (check_feature group_feature).variable_type .discrete then
    (tp_init "time_since_previous" [time_index, check_feature group_feature]).map
      (fun tp => ⟨time_index, check_feature group_feature, tp⟩)
  else
    .error "group_feature must have a discrete variable_type"

/-- `TimeSincePrevious._get_name`:
`"time_since_previous_by_%s" % self.group_feature.get_name()`. -/
def tsp_get_name (p : TimeSincePrevious) : String :=
  "time_since_previous_by_" ++ p.group_feature.name

lemma tsp_init_ok_inv (t g : Feature) (p : TimeSincePrevious)
    (h : tsp_init t g = .ok p) :
    p.time_index = t ∧ p.group_feature = g := by
  unfold tsp_init at h
  split at h
  case isFalse => exact absurd h (by simp)
  case isTrue =>
    cases htp : tp_init "time_since_previous" [t, check_feature g] with
    | error e =>
      rw [htp] at h
      exact absurd h (by simp [Except.map])
    | ok tp =>
      rw [htp] at h
      simp [Except.map] at h
      rw [← h]
      exact ⟨rfl, rfl⟩

/-- Class-level `name` of `DatetimeUnitBasePrimitive`: `None`. -/
def datetimeUnitBase_name : Option String := none

/-- Class-level `name` of `TimedeltaUnitBasePrimitive`: `None`. -/
def timedeltaUnitBase_name : Option String := none

/-- Modelled from the spec: the PrimitiveBase machinery that derives the
display name at construction is not under src/; per the spec (§4.1, §4.4)
a unit primitive class whose class-level `name` is unset (`None`) is not
directly instantiable, while a concrete unit subclass that sets `name`
constructs through `TransformPrimitive.__init__`. -/
def unit_primitive_init (clsName : Option String) (bf : Feature) :
    Except String TransformPrimitive :=
  match clsName with
  | some n => tp_init n [bf]
  | none => .error "unit base primitive is not directly instantiable: name is unset"

/-- The value stored for group `g` by the most recent earlier row of that
group, scanning a most-recent-first trace of already seen rows. -/
def lastPrev {α β : Type} [DecidableEq β] : List (β × α) → β → Option α
  | [], _ => none
  | (g2, v) :: rest, g => if g2 = g then some v else lastPrev rest g

/-- Scan of `pandas.DataFrame.groupby(groupby).diff()` as used by `Diff`
and `TimeSincePrevious`: row by row in the original order, each row yields
its value minus the value of the nearest earlier row of the same group,
and the first row of each group yields the missing-value sentinel. -/
def grouped_diff_aux {α β : Type} [DecidableEq β] [Sub α]
    (seen : List (β × α)) : List (α × β) → List (Option α)
  | [] => []
  | (v, g) :: rest =>
    ((lastPrev seen g).map (fun pv => v - pv)) ::
      grouped_diff_aux ((g, v) :: seen) rest

/-- `groupby(group_array).diff()` of `base_array`, rows aligned
positionally. -/
def grouped_diff {α β : Type} [DecidableEq β] [Sub α]
    (base_array : List α) (group_array : List β) : List (Option α) :=
  grouped_diff_aux [] (base_array.zip group_array)

/-- `Diff.get_function`'s `pd_diff`: the grouped diff of the numeric base
array, the missing first-of-group rows kept as the sentinel. -/
def diff_function (base_array : List ℚ) (group_array : List Int) :
    List (Option ℚ) :=
  grouped_diff base_array group_array

/-- `pandas` `Timedelta.total_seconds()` over an integer-nanosecond
duration. -/
def td_total_seconds (ns : Int) : ℚ := (ns : ℚ) / 1000000000

/-- `TimeSincePrevious.get_function`'s `pd_diff`: grouped diff of the
datetime base array (integer nanoseconds since epoch), each present
difference converted with `total_seconds`. -/
def tsp_function (base_array : List Int) (group_array : List Int) :
    List (Option ℚ) :=
  (grouped_diff base_array group_array).map (fun o => o.map td_total_seconds)

/-- `pandas` `TimedeltaIndex.days` of an integer-nanosecond duration: the
whole-day component (floor division). -/
def td_days (ns : Int) : Int := ns.fdiv 86400000000000

/-- `pandas` `TimedeltaIndex.seconds` of an integer-nanosecond duration:
the whole seconds of the sub-day component. -/
def td_seconds (ns : Int) : Int := (ns.fmod 86400000000000).fdiv 1000000000

/-- `Days.get_function`: `pd_time_unit("days")` over the TimedeltaIndex. -/
def days_function (array : List Int) : List Int := array.map td_days

/-- `Seconds.get_function`: `pd_time_unit("seconds")` over the
TimedeltaIndex. -/
def seconds_function (array : List Int) : List Int := array.map td_seconds

/-- `Hours.get_function`: seconds component divided by 3600. -/
def hours_function (array : List Int) : List ℚ :=
  array.map (fun ns => (td_seconds ns : ℚ) / 3600)

/-- `Minutes.get_function`: seconds component divided by 60. -/
def minutes_function (array : List Int) : List ℚ :=
  array.map (fun ns => (td_seconds ns : ℚ) / 60)

/-- `Weeks.get_function`: days component divided by 7. -/
def weeks_function (array : List Int) : List ℚ :=
  array.map (fun ns => (td_days ns : ℚ) / 7)

/-- `Months.get_function`: days component times 12/365. -/
def months_function (array : List Int) : List ℚ :=
  array.map (fun ns => (td_days ns : ℚ) * (12 / 365))

/-- `Years.get_function`: days component divided by 365. -/
def years_function (array : List Int) : List ℚ :=
  array.map (fun ns => (td_days ns : ℚ) / 365)

/-- A constructed IsIn primitive: the membership list bound at
construction (`self.list_of_outputs`, possibly absent) and the underlying
transform primitive. -/
structure IsIn where
  list_of_outputs : Option (List Int)
  tp : TransformPrimitive
deriving DecidableEq, Repr

/-- `IsIn.__init__`: stores the membership list, then delegates to
`TransformPrimitive.__init__` on the single base feature. -/
def isin_init (base_feature : Feature) (list_of_outputs : Option (List Int)) :
    Except String IsIn :=
  (tp_init "isin" [base_feature]).map (fun tp => ⟨list_of_outputs, tp⟩)

/-- `IsIn.get_function`'s `pd_is_in`: the bound list (replaced by the
empty list when absent), membership tested elementwise by
`pd.Series(array).isin`. -/
def isin_function (p : IsIn) (array : List Int) : List Bool :=
  array.map (fun v => (p.list_of_outputs.getD []).contains v)

lemma isin_init_ok_inv (f : Feature) (lo : Option (List Int)) (p : IsIn)
    (h : isin_init f lo = .ok p) : p.list_of_outputs = lo := by
  unfold isin_init at h
  cases htp : tp_init "isin" [f] with
  | error e =>
    rw [htp] at h
    exact absurd h (by simp [Except.map])
  | ok tp =>
    rw [htp] at h
    simp [Except.map] at h
    rw [← h]

/-- The `now` attribute of the `datetime` module object: the file imports
the module (`import datetime`), and the module itself has no `now`
attribute — only the class `datetime.datetime` inside it does — so the
attribute lookup `datetime.now` fails. -/
def datetime_module_now : Option (Unit → Int) := none

/-- `TimeSince.get_function`'s `pd_time_since` over integer-nanosecond
datetimes: with a reference time it returns `time - value` elementwise;
with `time is None` it evaluates `datetime.now()`, whose attribute lookup
fails. -/
def pd_time_since (array : List Int) (time : Option Int) :
    Except String (List Int) :=
  match time with
  | some t => .ok (array.map (fun v => t - v))
  | none =>
    match datetime_module_now with
    | some f => .ok (array.map (fun v => f () - v))
    | none => .error "AttributeError: module datetime has no attribute now"

/-- `DaysSince.get_function`'s `pd_days_since`: the day components of
`time - array`, with the same failing `datetime.now()` call when the
reference time is absent. -/
def pd_days_since (array : List Int) (time : Option Int) :
    Except String (List Int) :=
  match time with
  | some t => .ok (array.map (fun v => td_days (t - v)))
  | none =>
    match datetime_module_now with
    | some f => .ok (array.map (fun v => td_days (f () - v)))
    | none => .error "AttributeError: module datetime has no attribute now"

end FT

/-- Claim C1: constructing a TransformPrimitive whose base features do not
all belong to exactly one owning entity fails with the validation error
"More than one entity for base features"; when all base features share one
entity, the check passes and construction succeeds. -/
theorem C1_entity_mismatch (name : String) (bfs : List FT.Feature) :
    (¬ FT.oneEntity bfs →
      FT.tp_init name bfs = .error "More than one entity for base features") ∧
    (FT.oneEntity bfs → ∃ p, FT.tp_init name bfs = .ok p) := by
  constructor
  · intro hno
    unfold FT.tp_init
    rw [if_neg]
    intro hlen
    exact hno ((FT.dedup_length_one_iff bfs).mp (by simpa [FT.check_feature] using hlen))
  · intro hyes
    unfold FT.tp_init
    rw [if_pos]
    · exact ⟨_, rfl⟩
    · simpa [FT.check_feature] using (FT.dedup_length_one_iff bfs).mpr hyes

/-- Witness for C1: two base features on entities 0 and 1 trigger the
entity-mismatch error; a single base feature on entity 0 constructs. -/
theorem C1_entity_mismatch_witness :
    FT.tp_init "is_null"
        [⟨0, .numeric, 0, false, "a"⟩, ⟨1, .numeric, 0, false, "b"⟩] =
      .error "More than one entity for base features" ∧
    ∃ p, FT.tp_init "is_null" [⟨0, .numeric, 0, false, "a"⟩] = .ok p := by
  constructor
  · exact (C1_entity_mismatch "is_null" _).1 (by decide)
  · exact (C1_entity_mismatch "is_null" _).2 (by decide)

/-- Claim C2, counterexample: two base features that differ (in their
default value) but carry the same display name yield two distinct
successfully constructed primitives with identical display names, so
"instances differing in any base feature produce different names" fails as
stated. -/
theorem C2_counterexample :
    (⟨0, .numeric, 0, false, "amount"⟩ : FT.Feature) ≠
      ⟨0, .numeric, 1, false, "amount"⟩ ∧
    FT.tp_init "is_null" [⟨0, .numeric, 0, false, "amount"⟩] =
      .ok ⟨"is_null", [⟨0, .numeric, 0, false, "amount"⟩], false, 0⟩ ∧
    FT.tp_init "is_null" [⟨0, .numeric, 1, false, "amount"⟩] =
      .ok ⟨"is_null", [⟨0, .numeric, 1, false, "amount"⟩], false, 0⟩ ∧
    FT.tp_get_name ⟨"is_null", [⟨0, .numeric, 0, false, "amount"⟩], false, 0⟩ =
      FT.tp_get_name ⟨"is_null", [⟨0, .numeric, 1, false, "amount"⟩], false, 0⟩ := by
  exact ⟨by decide, rfl, rfl, rfl⟩

/-- Claim C2, amended: the display name is the uppercased transformation
name followed by the comma-joined base-feature display names in
parentheses (e.g. IS_NULL(amount)); get_name is deterministic; instances
of the same transformation with identical base features have identical
names; and instances whose base-feature lists differ in the display name
of exactly one slot (the rest unchanged) have different names — the name
depends on the base features only through their display names. -/
theorem C2_get_name (p q : FT.TransformPrimitive) :
    (FT.tp_get_name p =
      FT.upperStr p.name ++ "(" ++
        FT.joinComma (p.base_features.map (fun f => f.name)) ++ ")") ∧
    (FT.tp_get_name
        ⟨"is_null", [⟨0, .numeric, 0, false, "amount"⟩], false, 0⟩ =
      "IS_NULL(amount)") ∧
    (FT.tp_get_name p = FT.tp_get_name p) ∧
    (p.name = q.name → p.base_features = q.base_features →
      FT.tp_get_name p = FT.tp_get_name q) ∧
    (∀ (pre suf : List FT.Feature) (x y : FT.Feature),
      p.name = q.name →
      p.base_features = pre ++ x :: suf →
      q.base_features = pre ++ y :: suf →
      x.name ≠ y.name →
      FT.tp_get_name p ≠ FT.tp_get_name q) := by
  refine ⟨rfl, by decide, rfl, ?_, ?_⟩
  · intro h1 h2
    unfold FT.tp_get_name
    rw [h1, h2]
  · intro pre suf x y hm hp hq hxy
    exact FT.tp_get_name_ne_of_slot_ne p q pre suf x y hm hp hq hxy

/-- Witness for C2: IS_NULL over a feature named "a" and IS_NULL over a
feature named "b" get different display names. -/
theorem C2_get_name_witness :
    FT.tp_get_name ⟨"is_null", [⟨0, .numeric, 0, false, "a"⟩], false, 0⟩ ≠
      FT.tp_get_name ⟨"is_null", [⟨0, .numeric, 0, false, "b"⟩], false, 0⟩ := by
  exact (C2_get_name _ _).2.2.2.2 [] [] ⟨0, .numeric, 0, false, "a"⟩
    ⟨0, .numeric, 0, false, "b"⟩ rfl rfl rfl (by decide)

/-- Claim C6: every successfully constructed TransformPrimitive has
nonempty base features and its default_value equals the default value of
its first base feature (a derived property, not stored independently). -/
theorem C6_default_value (name : String) (bfs : List FT.Feature)
    (p : FT.TransformPrimitive) (h : FT.tp_init name bfs = .ok p) :
    ∃ f rest, bfs = f :: rest ∧ FT.tp_default_value p = f.default_value := by
  rw [FT.tp_init_eq] at h
  split at h
  case isFalse => exact absurd h (by simp)
  case isTrue hlen =>
    rcases bfs with _ | ⟨f, rest⟩
    · simp at hlen
    · refine ⟨f, rest, rfl, ?_⟩
      injection h with hp
      rw [← hp]
      simp [FT.tp_default_value]

/-- Witness for C6: a concrete IsNull primitive inherits its base
feature's default value 7. -/
theorem C6_default_value_witness :
    ∃ f rest, [(⟨0, .numeric, 7, false, "a"⟩ : FT.Feature)] = f :: rest ∧
      FT.tp_default_value
          ⟨"is_null", [⟨0, .numeric, 7, false, "a"⟩], false, 0⟩ =
        f.default_value := by
  exact C6_default_value "is_null" [⟨0, .numeric, 7, false, "a"⟩] _ rfl

/-- Claim C7: constructing TimeSincePrevious with a group feature whose
variable kind is not a Discrete subtype fails with "group_feature must
have a discrete variable_type"; with a Discrete-subtype group feature that
check passes (the construction never yields that error), and a
successfully constructed instance is displayed as
time_since_previous_by_<group feature name>. -/
theorem C7_tsp_discrete_check (t g : FT.Feature) :
    (¬ FT.issubclassVT g.variable_type .discrete = true →
      FT.tsp_init t g =
        .error "group_feature must have a discrete variable_type") ∧
    (FT.issubclassVT g.variable_type .discrete = true →
      FT.tsp_init t g ≠
        .error "group_feature must have a discrete variable_type") ∧
    (∀ p, FT.tsp_init t g = .ok p →
      FT.tsp_get_name p = "time_since_previous_by_" ++ g.name) := by
  refine ⟨?_, ?_, ?_⟩
  · intro hnd
    unfold FT.tsp_init
    rw [if_neg]
    simpa [FT.check_feature] using hnd
  · intro hd
    unfold FT.tsp_init
    rw [if_pos (by simpa [FT.check_feature] using hd)]
    cases htp : FT.tp_init "time_since_previous" [t, FT.check_feature g] with
    | error e =>
      rw [FT.tp_init_eq] at htp
      simp [FT.check_feature] at htp
      split at htp
      · exact absurd htp (by simp)
      · simp [Except.map]
        intro hcontra
        rw [hcontra] at htp
        simp at htp
    | ok tp => simp [Except.map]
  · intro p hp
    rcases FT.tsp_init_ok_inv t g p hp with ⟨-, hg⟩
    rw [FT.tsp_get_name, hg]

/-- Witness for C7: a Numeric group feature is rejected with the discrete
validation message; an Id group feature passes and the constructed
instance is named time_since_previous_by_session. -/
theorem C7_tsp_discrete_check_witness :
    FT.tsp_init ⟨0, .datetimeTimeIndex, 0, false, "t"⟩
        ⟨0, .numeric, 0, false, "x"⟩ =
      .error "group_feature must have a discrete variable_type" ∧
    FT.tsp_get_name
        ⟨⟨0, .datetimeTimeIndex, 0, false, "t"⟩,
         ⟨0, .id, 0, false, "session"⟩,
         ⟨"time_since_previous",
          [⟨0, .datetimeTimeIndex, 0, false, "t"⟩,
           ⟨0, .id, 0, false, "session"⟩], false, 0⟩⟩ =
      "time_since_previous_by_" ++ "session" := by
  constructor
  · exact (C7_tsp_discrete_check _ _).1 (by decide)
  · exact (C7_tsp_discrete_check ⟨0, .datetimeTimeIndex, 0, false, "t"⟩
      ⟨0, .id, 0, false, "session"⟩).2.2 _ rfl

/-- Claim C9: the unit base classes DatetimeUnitBasePrimitive and
TimedeltaUnitBasePrimitive, whose class-level name is unset, are not
directly instantiable, while a concrete unit subclass (e.g. Day, which
sets name = "day") constructs. -/
theorem C9_unit_base_not_instantiable (bf : FT.Feature) :
    FT.unit_primitive_init FT.datetimeUnitBase_name bf =
      .error "unit base primitive is not directly instantiable: name is unset" ∧
    FT.unit_primitive_init FT.timedeltaUnitBase_name bf =
      .error "unit base primitive is not directly instantiable: name is unset" ∧
    ∃ p, FT.unit_primitive_init (some "day") bf = .ok p := by
  refine ⟨rfl, rfl, ?_⟩
  have h : FT.tp_init "day" [bf] = .ok ⟨"day", [bf], bf.expanding, bf.entity⟩ := by
    rw [FT.tp_init_eq]
    simp
  exact ⟨_, h⟩

/-- Claim C10: the display name of TimeSincePrevious depends only on its
grouping feature: two instances built over different time-index features
but the same group feature get identical display names. -/
theorem C10_tsp_name_collision (t1 t2 g : FT.Feature)
    (p1 p2 : FT.TimeSincePrevious)
    (h1 : FT.tsp_init t1 g = .ok p1) (h2 : FT.tsp_init t2 g = .ok p2) :
    FT.tsp_get_name p1 = FT.tsp_get_name p2 := by
  rcases FT.tsp_init_ok_inv t1 g p1 h1 with ⟨-, hg1⟩
  rcases FT.tsp_init_ok_inv t2 g p2 h2 with ⟨-, hg2⟩
  rw [FT.tsp_get_name, FT.tsp_get_name, hg1, hg2]

/-- Witness for C10: instances over time indices "t1" and "t2" with the
same group feature "session" collide on
time_since_previous_by_session. -/
theorem C10_tsp_name_collision_witness :
    FT.tsp_get_name
        ⟨⟨0, .datetimeTimeIndex, 0, false, "t1"⟩,
         ⟨0, .id, 0, false, "session"⟩,
         ⟨"time_since_previous",
          [⟨0, .datetimeTimeIndex, 0, false, "t1"⟩,
           ⟨0, .id, 0, false, "session"⟩], false, 0⟩⟩ =
      FT.tsp_get_name
        ⟨⟨0, .datetimeTimeIndex, 0, false, "t2"⟩,
         ⟨0, .id, 0, false, "session"⟩,
         ⟨"time_since_previous",
          [⟨0, .datetimeTimeIndex, 0, false, "t2"⟩,
           ⟨0, .id, 0, false, "session"⟩], false, 0⟩⟩ := by
  exact C10_tsp_name_collision ⟨0, .datetimeTimeIndex, 0, false, "t1"⟩
    ⟨0, .datetimeTimeIndex, 0, false, "t2"⟩ ⟨0, .id, 0, false, "session"⟩
    _ _ rfl rfl

/-- Claim C3: for Diff and TimeSincePrevious over rows
[(v1,g1),(v2,g1),(v3,g2)] with g1 and g2 distinct groups, the output is
positionally aligned with the input; rows 1 and 3 — the first rows of
their groups, row 3 a singleton group — yield the missing-value sentinel,
and row 2 yields its value minus the previous value within its group
(v2 - v1, converted to seconds for TimeSincePrevious). -/
theorem C3_grouped_diff (v1 v2 v3 : ℚ) (t1 t2 t3 g1 g2 : Int)
    (hg : g1 ≠ g2) :
    FT.diff_function [v1, v2, v3] [g1, g1, g2] =
      [none, some (v2 - v1), none] ∧
    FT.tsp_function [t1, t2, t3] [g1, g1, g2] =
      [none, some (((t2 - t1 : Int) : ℚ) / 1000000000), none] := by
  constructor
  · simp [FT.diff_function, FT.grouped_diff, FT.grouped_diff_aux,
      FT.lastPrev, hg]
  · simp [FT.tsp_function, FT.grouped_diff, FT.grouped_diff_aux,
      FT.lastPrev, FT.td_total_seconds, hg]

/-- Witness for C3: values (1, 5, 10) over groups (0, 0, 1), and
nanosecond times (10^9, 4*10^9, 9*10^9) over the same groups: the middle
row yields 4 (3 seconds for TimeSincePrevious), the group-leading rows
yield the sentinel. -/
theorem C3_grouped_diff_witness :
    FT.diff_function [1, 5, 10] [0, 0, 1] = [none, some 4, none] ∧
    FT.tsp_function [1000000000, 4000000000, 9000000000] [0, 0, 1] =
      [none, some 3, none] := by
  have h := C3_grouped_diff 1 5 10 1000000000 4000000000 9000000000 0 1
    (by decide)
  constructor
  · rw [h.1]
    norm_num
  · rw [h.2]
    norm_num

/-- Claim C5: the Timedelta unit-family conversions: hours are the seconds
count divided by 3600, minutes the seconds count divided by 60, weeks the
days count divided by 7, months the days count times 12/365, years the
days count divided by 365; a duration of exactly 3600 seconds yields 1.0
under Hours, 86400 seconds yields 1 under Days, 604800 seconds yields 1.0
under Weeks. -/
theorem C5_unit_conversions (array : List Int) :
    FT.hours_function array =
      (FT.seconds_function array).map (fun (s : Int) => (s : ℚ) / 3600) ∧
    FT.minutes_function array =
      (FT.seconds_function array).map (fun (s : Int) => (s : ℚ) / 60) ∧
    FT.weeks_function array =
      (FT.days_function array).map (fun (d : Int) => (d : ℚ) / 7) ∧
    FT.months_function array =
      (FT.days_function array).map (fun (d : Int) => (d : ℚ) * (12 / 365)) ∧
    FT.years_function array =
      (FT.days_function array).map (fun (d : Int) => (d : ℚ) / 365) ∧
    FT.hours_function [3600 * 1000000000] = [1] ∧
    FT.days_function [86400 * 1000000000] = [1] ∧
    FT.weeks_function [604800 * 1000000000] = [1] := by
  have hsec : FT.td_seconds (3600 * 1000000000) = 3600 := by decide
  have hday : FT.td_days (86400 * 1000000000) = 1 := by decide
  have hweek : FT.td_days (604800 * 1000000000) = 7 := by decide
  refine ⟨?_, ?_, ?_, ?_, ?_, ?_, ?_, ?_⟩
  · simp only [FT.hours_function, FT.seconds_function, List.map_map,
      Function.comp_def]
  · simp only [FT.minutes_function, FT.seconds_function, List.map_map,
      Function.comp_def]
  · simp only [FT.weeks_function, FT.days_function, List.map_map,
      Function.comp_def]
  · simp only [FT.months_function, FT.days_function, List.map_map,
      Function.comp_def]
  · simp only [FT.years_function, FT.days_function, List.map_map,
      Function.comp_def]
  · rw [FT.hours_function, List.map_cons, List.map_nil, hsec]
    norm_num
  · rw [FT.days_function, List.map_cons, List.map_nil, hday]
  · rw [FT.weeks_function, List.map_cons, List.map_nil, hweek]
    norm_num

/-- Claim C8: IsIn binds its membership list at construction; its function
yields, positionally for each input value, true exactly when the value is
in the bound list; with list (1, 3) on input (1, 2, 3, 4) it yields
(true, false, true, false), and with no list supplied it yields false for
every input value. -/
theorem C8_isin (f : FT.Feature) (l arr : List Int) (p q : FT.IsIn)
    (hp : FT.isin_init f (some l) = .ok p)
    (hq : FT.isin_init f none = .ok q) :
    (∀ (i : Nat) (v : Int), arr[i]? = some v →
      (FT.isin_function p arr)[i]? = some (decide (v ∈ l))) ∧
    (∀ (i : Nat) (v : Int), arr[i]? = some v →
      (FT.isin_function q arr)[i]? = some false) ∧
    (∀ r : FT.IsIn, FT.isin_init f (some [1, 3]) = .ok r →
      FT.isin_function r [1, 2, 3, 4] = [true, false, true, false]) := by
  have hpl := FT.isin_init_ok_inv f (some l) p hp
  have hql := FT.isin_init_ok_inv f none q hq
  refine ⟨?_, ?_, ?_⟩
  · intro i v hv
    simp [FT.isin_function, hpl, List.getElem?_map, hv, List.contains]
  · intro i v hv
    have hi : i < arr.length := by
      rcases List.getElem?_eq_some.mp hv with ⟨h, -⟩
      exact h
    simp [FT.isin_function, hql, hi]
  · intro r hr
    have hrl := FT.isin_init_ok_inv f (some [1, 3]) r hr
    simp [FT.isin_function, hrl]

/-- Witness for C8: a concrete IsIn over a numeric feature, with list
(1, 3), maps (1, 2, 3, 4) to (true, false, true, false); with no list,
position 0 yields false. -/
theorem C8_isin_witness :
    FT.isin_function ⟨some [1, 3],
        ⟨"isin", [⟨0, .numeric, 0, false, "x"⟩], false, 0⟩⟩
      [1, 2, 3, 4] = [true, false, true, false] ∧
    (FT.isin_function ⟨none,
        ⟨"isin", [⟨0, .numeric, 0, false, "x"⟩], false, 0⟩⟩
      [1, 2, 3, 4])[0]? = some false := by
  have h := C8_isin ⟨0, .numeric, 0, false, "x"⟩ [1, 3] [1, 2, 3, 4]
    ⟨some [1, 3], ⟨"isin", [⟨0, .numeric, 0, false, "x"⟩], false, 0⟩⟩
    ⟨none, ⟨"isin", [⟨0, .numeric, 0, false, "x"⟩], false, 0⟩⟩ rfl rfl
  exact ⟨h.2.2 _ rfl, h.2.1 0 1 rfl⟩

/-- Claim C4, evaluated at the failing input: when no reference time is
supplied (time is None), the functions of TimeSince and DaysSince do not
substitute the current wall-clock time — the call `datetime.now()` fails,
because line 6 imports the `datetime` module and the module has no `now`
attribute; with a reference time supplied, TimeSince returns time minus
each value. -/
theorem C4_now_attribute_error (array : List Int) :
    FT.pd_time_since array none =
      .error "AttributeError: module datetime has no attribute now" ∧
    FT.pd_days_since array none =
      .error "AttributeError: module datetime has no attribute now" ∧
    (∀ t, FT.pd_time_since array (some t) =
      .ok (array.map (fun v => t - v))) := by
  exact ⟨rfl, rfl, fun t => rfl⟩
